import Mathlib

/-!
Shallow embedding of `part4/Backend/run_simple.py` (the HBnB backend):
data model (User, Place, Review), the JWT-based authorization gate
(`admin_required`), and the route handlers `login`, `register`,
`create_place`, `delete_place`, `reviews` (POST = create review),
`delete_review`, `get_user`, `list_users`, `delete_user`.

The database session is modelled as an explicit record of three lists;
`db.session.commit()` outcomes are modelled by an explicit `CommitResult`
parameter (ok / IntegrityError / other failure), so that the
rollback-on-exception behaviour of the handlers is visible in the state
returned. Password hashing is opaque in the source (werkzeug); it is
modelled by a concrete stand-in pair `generate_password_hash` /
`check_password_hash` with the same contract (check succeeds exactly on
the hash of the same password). JWTs are modelled as a record carrying the
identity (`sub`) and the additional claims, since the routes only ever
read those decoded fields.
-/

namespace HBnB

/-- Identity record, as the `User` SQLAlchemy model in `run_simple.py`. -/
structure User where
  id : String
  first_name : String
  last_name : String
  email : String
  password : String
  is_admin : Bool
deriving DecidableEq, Repr

/-- `User.to_dict` projection: all fields except the password hash. -/
structure UserDict where
  id : String
  first_name : String
  last_name : String
  email : String
  is_admin : Bool
deriving DecidableEq, Repr

/-- `User.to_dict` from `run_simple.py` line 36: serializes id, names,
email and the admin flag; the `password` column is not included. -/
def User.to_dict (u : User) : UserDict :=
  { id := u.id, first_name := u.first_name, last_name := u.last_name,
    email := u.email, is_admin := u.is_admin }

/-- Place record, as the `Place` SQLAlchemy model: `description` and
`price` are nullable columns, `owner_id` is a nullable foreign key. -/
structure Place where
  id : String
  title : String
  description : Option String
  price : Option Int
  owner_id : Option String
deriving DecidableEq, Repr

/-- Review record, as the `Review` SQLAlchemy model. -/
structure Review where
  id : String
  user_id : String
  place_id : String
  text : String
  rating : Int
deriving DecidableEq, Repr

/-- The database state: the three tables of `development.db`. -/
structure DB where
  users : List User
  places : List Place
  reviews : List Review
deriving DecidableEq, Repr

/-- Additional JWT claims set by `login` / `register`:
`{'user_id': ..., 'email': ..., 'is_admin': ...}`. -/
structure Claims where
  user_id : String
  email : String
  is_admin : Bool
deriving DecidableEq, Repr

/-- A decoded access token: `create_access_token(identity=...,
additional_claims=...)`. `identity` is the JWT `sub` claim returned by
`get_jwt_identity()`; `claims` is what `get_jwt()` exposes. -/
structure Token where
  identity : String
  claims : Claims
deriving DecidableEq, Repr

/-- `create_access_token` of flask_jwt_extended, restricted to the fields
the routes decode back out. -/
def create_access_token (identity : String) (additional_claims : Claims) : Token :=
  { identity := identity, claims := additional_claims }

/-- The decoded subject (`sub`) of a token. -/
def Token.subject (t : Token) : String := t.identity

/-- The verified authentication context a route sees after
`verify_jwt_in_request()`: `get_jwt_identity()` and `get_jwt()`. -/
structure AuthCtx where
  identity : String
  claims : Claims
deriving DecidableEq, Repr

/-- Outcome of a `db.session.commit()` call: success, a uniqueness
violation (`sqlalchemy.exc.IntegrityError`), or any other exception. -/
inductive CommitResult where
  | ok
  | integrityError
  | failure
deriving DecidableEq, Repr

/-- An HTTP-level route result: a success payload or an error message,
each with its status code. -/
inductive ApiResult (α : Type) where
  | ok (code : Nat) (val : α)
  | err (code : Nat) (msg : String)
deriving DecidableEq, Repr

/-- Python `str.strip()`: drop whitespace from both ends. -/
def pyStrip (s : String) : String :=
  ⟨((s.data.dropWhile Char.isWhitespace).reverse.dropWhile
      Char.isWhitespace).reverse⟩

/-- Python `str.lower()`. -/
def pyLower (s : String) : String := ⟨s.data.map Char.toLower⟩

/-- Python truthiness test `not x` for an optional string field of a JSON
body: true when the field is absent or the empty string. -/
def falsy : Option String → Bool
  | none => true
  | some s => s.isEmpty

/-- Stand-in for werkzeug `generate_password_hash` (opaque primitive). -/
def generate_password_hash (password : String) : String :=
  "pbkdf2:sha256$" ++ password

/-- Stand-in for werkzeug `check_password_hash`: succeeds exactly when
the stored hash is the hash of the presented password. -/
def check_password_hash (pwhash password : String) : Bool :=
  pwhash == generate_password_hash password

/-- The `admin_required` decorator (`run_simple.py` lines 149-160):
verification failure or absent token gives 401; a verified token whose
claims lack `is_admin` gives 403; otherwise the wrapped route runs with
the verified context. `auth = none` models `verify_jwt_in_request()`
raising. -/
def admin_required {α : Type} (auth : Option AuthCtx)
    (fn : AuthCtx → DB → ApiResult α × DB) (s : DB) : ApiResult α × DB :=
  match auth with
  | none => (.err 401 "Authentication required", s)
  | some ctx =>
    if ctx.claims.is_admin then fn ctx s
    else (.err 403 "Admin privileges required", s)

/-- `POST /api/v1/auth/login` (lines 163-175). -/
def login (emailIn passwordIn : Option String) (s : DB) : ApiResult Token × DB :=
  let email := pyLower (pyStrip (emailIn.getD ""))
  let password := passwordIn.getD ""
  if email.isEmpty || password.isEmpty then
    (.err 400 "email and password required", s)
  else
    match s.users.find? (fun u => u.email == email) with
    | none => (.err 401 "Invalid email or password", s)
    | some user =>
      if check_password_hash user.password password then
        let claims : Claims :=
          { user_id := user.id, email := user.email, is_admin := user.is_admin }
        (.ok 200 (create_access_token user.id claims), s)
      else (.err 401 "Invalid email or password", s)

/-- JSON body of `POST /api/v1/users`. -/
structure RegisterReq where
  first_name : Option String
  last_name : Option String
  email : Option String
  password : Option String
deriving DecidableEq, Repr

/-- `POST /api/v1/users` = `register` (lines 178-200). `newId` models the
uuid4 primary-key default; `c` the outcome of `db.session.commit()`:
an `IntegrityError` (the unique-email constraint firing at commit time)
is rolled back and reported exactly like the pre-check duplicate. -/
def register (req : RegisterReq) (newId : String) (c : CommitResult)
    (s : DB) : ApiResult (UserDict × Token) × DB :=
  let email := pyLower (pyStrip (req.email.getD ""))
  if email.isEmpty || falsy req.password || falsy req.first_name
      || falsy req.last_name then
    (.err 400 "Missing fields", s)
  else
    match s.users.find? (fun u => u.email == email) with
    | some _ => (.err 400 "Email already registered", s)
    | none =>
      let user : User :=
        { id := newId, first_name := req.first_name.getD "",
          last_name := req.last_name.getD "", email := email,
          password := generate_password_hash (req.password.getD ""),
          is_admin := false }
      match c with
      | .ok =>
        let claims : Claims :=
          { user_id := user.id, email := user.email, is_admin := user.is_admin }
        (.ok 201 (user.to_dict, create_access_token user.id claims),
         { s with users := s.users ++ [user] })
      | .integrityError => (.err 400 "Email already registered", s)
      | .failure => (.err 500 "Failed to create user", s)

/-- JSON body of `POST /api/v1/places`. -/
structure PlaceReq where
  title : Option String
  description : Option String
  price : Option Int
deriving DecidableEq, Repr

/-- `POST /api/v1/places` = `create_place` (lines 209-221), behind
`admin_required`. The source checks only `not title or price is None`;
the created row has no owner. -/
def create_place (auth : Option AuthCtx) (req : PlaceReq) (newId : String)
    (s : DB) : ApiResult Place × DB :=
  admin_required auth (fun _ s =>
    if falsy req.title || req.price.isNone then
      (.err 400 "Missing fields", s)
    else
      let place : Place :=
        { id := newId, title := req.title.getD "",
          description := req.description, price := req.price,
          owner_id := none }
      (.ok 201 place, { s with places := s.places ++ [place] })) s

/-- `DELETE /api/v1/places/<place_id>` = `delete_place` (lines 239-253),
behind `admin_required`: deletes the reviews with matching `place_id` and
the place in one transaction; any exception rolls the whole unit back. -/
def delete_place (auth : Option AuthCtx) (place_id : String)
    (c : CommitResult) (s : DB) : ApiResult String × DB :=
  admin_required auth (fun _ s =>
    match s.places.find? (fun p => p.id == place_id) with
    | none => (.err 404 "Place not found", s)
    | some _ =>
      match c with
      | .ok =>
        (.ok 200 "Place deleted successfully",
         { s with places := s.places.filter (fun p => p.id != place_id),
                  reviews := s.reviews.filter (fun r => r.place_id != place_id) })
      | _ => (.err 500 "Failed to delete place", s)) s

/-- JSON body of `POST /api/v1/reviews`. -/
structure ReviewReq where
  place_id : Option String
  text : Option String
  rating : Option Int
deriving DecidableEq, Repr

/-- `POST /api/v1/reviews` (the POST branch of `reviews`, lines 277-295):
requires a verified identity, checks the fields are present, the place
exists, and that no review by the same user on the same place with the
same stripped text and rating exists; then stores the stripped text and
the rating as given. -/
def create_review (auth : Option AuthCtx) (req : ReviewReq) (newId : String)
    (s : DB) : ApiResult Review × DB :=
  match auth with
  | none => (.err 401 "Authentication required", s)
  | some ctx =>
    if falsy req.place_id || falsy req.text || req.rating.isNone then
      (.err 400 "Missing fields", s)
    else
      let place_id := req.place_id.getD ""
      match s.places.find? (fun p => p.id == place_id) with
      | none => (.err 404 "Place not found", s)
      | some _ =>
        let clean_text := pyStrip (req.text.getD "")
        let rating := req.rating.getD 0
        match s.reviews.find? (fun r =>
            r.user_id == ctx.identity && r.place_id == place_id
            && r.text == clean_text && r.rating == rating) with
        | some _ => (.err 409 "Duplicate review detected", s)
        | none =>
          let review : Review :=
            { id := newId, user_id := ctx.identity, place_id := place_id,
              text := clean_text, rating := rating }
          (.ok 201 review, { s with reviews := s.reviews ++ [review] })

/-- `DELETE /api/v1/reviews/<review_id>` = `delete_review`
(lines 307-333): authenticated; the owner or an admin may delete; a
commit failure rolls back. -/
def delete_review (auth : Option AuthCtx) (review_id : String)
    (c : CommitResult) (s : DB) : ApiResult String × DB :=
  match auth with
  | none => (.err 401 "Authentication required", s)
  | some ctx =>
    match s.reviews.find? (fun r => r.id == review_id) with
    | none => (.err 404 "Review not found", s)
    | some review =>
      if !ctx.claims.is_admin && review.user_id != ctx.identity then
        (.err 403 "Unauthorized action", s)
      else
        match c with
        | .ok =>
          (.ok 200 "Review deleted successfully",
           { s with reviews := s.reviews.filter (fun r => r.id != review_id) })
        | _ => (.err 500 "Failed to delete review", s)

/-- `GET /api/v1/users/<user_id>` = `get_user` (lines 336-341): no
decorator, no token is read; returns `to_dict` of the user or 404. -/
def get_user (user_id : String) (s : DB) : ApiResult UserDict × DB :=
  match s.users.find? (fun u => u.id == user_id) with
  | none => (.err 404 "User not found", s)
  | some user => (.ok 200 user.to_dict, s)

/-- `GET /api/v1/users` = `list_users` (lines 344-348), behind
`admin_required`. -/
def list_users (auth : Option AuthCtx) (s : DB) : ApiResult (List UserDict) × DB :=
  admin_required auth (fun _ s => (.ok 200 (s.users.map User.to_dict), s)) s

/-- `DELETE /api/v1/users/<user_id>` = `delete_user` (lines 351-366),
behind `admin_required`: in one transaction deletes the user's reviews,
nulls `owner_id` on the user's places, and deletes the user; any
exception rolls the whole unit back. -/
def delete_user (auth : Option AuthCtx) (user_id : String)
    (c : CommitResult) (s : DB) : ApiResult String × DB :=
  admin_required auth (fun _ s =>
    match s.users.find? (fun u => u.id == user_id) with
    | none => (.err 404 "User not found", s)
    | some _ =>
      match c with
      | .ok =>
        (.ok 200 "User deleted successfully",
         { users := s.users.filter (fun u => u.id != user_id),
           places := s.places.map (fun p =>
             if p.owner_id == some user_id then { p with owner_id := none } else p),
           reviews := s.reviews.filter (fun r => r.user_id != user_id) })
      | _ => (.err 500 "Failed to delete user", s)) s

/-- The content tuple of a review, for the exact-duplicate guard. -/
def Review.tuple (r : Review) : String × String × String × Int :=
  (r.user_id, r.place_id, r.text, r.rating)

/-! Sample data, mirroring the seeding in `init_db`, used to evaluate the
theorems on concrete inputs. -/

/-- A verified admin context. -/
def adminCtx : AuthCtx :=
  ⟨"admin1", ⟨"admin1", "admin@example.com", true⟩⟩

/-- A verified non-admin context for user `u1`. -/
def demoCtx : AuthCtx :=
  ⟨"u1", ⟨"u1", "demo@example.com", false⟩⟩

/-- A verified non-admin context for user `u2`. -/
def otherCtx : AuthCtx :=
  ⟨"u2", ⟨"u2", "other@example.com", false⟩⟩

/-- Sample demo user. -/
def demoUser : User :=
  ⟨"u1", "Demo", "User", "demo@example.com",
   generate_password_hash "DemoPass123", false⟩

/-- Sample place owned by `u1`. -/
def beachHouse : Place :=
  ⟨"p1", "Beautiful Beach House", some "A beautiful beach house.",
   some 150, some "u1"⟩

/-- Sample place with no owner. -/
def cozyCabin : Place := ⟨"p2", "Cozy Cabin", none, some 100, none⟩

/-- Sample review by `u1` on `p1`. -/
def rev1 : Review := ⟨"r1", "u1", "p1", "Great stay", 5⟩

/-- Sample review by `u2` on `p2`. -/
def rev2 : Review := ⟨"r2", "u2", "p2", "Nice", 4⟩

/-- A sample database state. -/
def sampleDB : DB := ⟨[demoUser], [beachHouse, cozyCabin], [rev1, rev2]⟩

/-! Helper lemmas shared by the route theorems. -/

/-- A list containing an element satisfying `p` has `find? p = some y`
for some member `y` satisfying `p`. -/
theorem exists_find?_eq_some {α : Type} (p : α → Bool) (l : List α) (x : α)
    (hx : x ∈ l) (hp : p x = true) :
    ∃ y, l.find? p = some y ∧ y ∈ l ∧ p y = true := by
  have h : (l.find? p).isSome := List.find?_isSome.mpr ⟨x, hx, hp⟩
  obtain ⟨y, hy⟩ := Option.isSome_iff_exists.mp h
  exact ⟨y, hy, List.mem_of_find?_eq_some hy, List.find?_some hy⟩

/-- C5: the `admin_required` gate short-circuits with 401
"Authentication required" and an untouched state when the bearer token is
absent or fails verification; short-circuits with 403 "Admin privileges
required" and an untouched state when the token verifies but its claims'
`is_admin` is false; and otherwise hands control to the wrapped operation
with the verified context, returning exactly its result. -/
theorem admin_required_gate {α : Type} (fn : AuthCtx → DB → ApiResult α × DB)
    (s : DB) :
    admin_required none fn s = (.err 401 "Authentication required", s)
    ∧ (∀ ctx : AuthCtx, ctx.claims.is_admin = false →
        admin_required (some ctx) fn s = (.err 403 "Admin privileges required", s))
    ∧ (∀ ctx : AuthCtx, ctx.claims.is_admin = true →
        admin_required (some ctx) fn s = fn ctx s) := by
  refine ⟨rfl, ?_, ?_⟩ <;> intro ctx h <;> simp [admin_required, h]

/-- C5 witness: the three gate outcomes on concrete inputs. -/
theorem admin_required_gate_witness :
    admin_required (α := Nat) none (fun _ s => (.ok 200 7, s)) sampleDB
        = (.err 401 "Authentication required", sampleDB)
    ∧ admin_required (some demoCtx) (fun _ s => (.ok 200 7, s)) sampleDB
        = (.err 403 "Admin privileges required", sampleDB)
    ∧ admin_required (some adminCtx) (fun _ s => (.ok 200 7, s)) sampleDB
        = (.ok 200 7, sampleDB) := by
  obtain ⟨h1, h2, h3⟩ :=
    admin_required_gate (α := Nat) (fun _ s => (.ok 200 7, s)) sampleDB
  exact ⟨h1, h2 demoCtx rfl, h3 adminCtx rfl⟩

/-- C1: a successful admin delete of place `P` answers 200, removes every
place with `P`'s id and every review whose `place_id` is `P`'s id, keeps
all other places, reviews and all users; when `P` has zero reviews it
still succeeds and the review table is untouched; and when the commit
step fails the whole operation answers 500 and the state is exactly the
pre-operation state. -/
theorem delete_place_cascades_and_atomic (ctx : AuthCtx) (P : Place)
    (pid : String) (s : DB) (hadm : ctx.claims.is_admin = true)
    (hP : P ∈ s.places) (hid : P.id = pid) :
    ((delete_place (some ctx) pid .ok s).1 = .ok 200 "Place deleted successfully"
      ∧ (∀ p ∈ (delete_place (some ctx) pid .ok s).2.places, p.id ≠ pid)
      ∧ (∀ r ∈ (delete_place (some ctx) pid .ok s).2.reviews, r.place_id ≠ pid)
      ∧ (∀ p ∈ s.places, p.id ≠ pid → p ∈ (delete_place (some ctx) pid .ok s).2.places)
      ∧ (∀ r ∈ s.reviews, r.place_id ≠ pid → r ∈ (delete_place (some ctx) pid .ok s).2.reviews)
      ∧ (delete_place (some ctx) pid .ok s).2.users = s.users)
    ∧ ((∀ r ∈ s.reviews, r.place_id ≠ pid) →
        (delete_place (some ctx) pid .ok s).2.reviews = s.reviews)
    ∧ (∀ c : CommitResult, c ≠ .ok →
        delete_place (some ctx) pid c s = (.err 500 "Failed to delete place", s)) := by
  obtain ⟨q, hq, -, -⟩ :=
    exists_find?_eq_some (fun p => p.id == pid) s.places P hP (by simp [hid])
  refine ⟨?_, ?_, ?_⟩
  · simp only [delete_place, admin_required, hadm, if_true, hq]
    refine ⟨trivial, ?_, ?_, ?_, ?_, trivial⟩
    · intro p hp
      simpa using (List.mem_filter.mp hp).2
    · intro r hr
      simpa using (List.mem_filter.mp hr).2
    · intro p hp hne
      exact List.mem_filter.mpr ⟨hp, by simpa using hne⟩
    · intro r hr hne
      exact List.mem_filter.mpr ⟨hr, by simpa using hne⟩
  · intro h
    simp only [delete_place, admin_required, hadm, if_true, hq]
    exact List.filter_eq_self.mpr (fun r hr => by simpa using h r hr)
  · intro c hc
    cases c with
    | ok => exact absurd rfl hc
    | integrityError => simp [delete_place, admin_required, hadm, hq]
    | failure => simp [delete_place, admin_required, hadm, hq]

/-- C1 witness: deleting place `p1` from the sample state removes it and
its review, keeps the rest, and a failed commit leaves the state as it
was. -/
theorem delete_place_cascades_and_atomic_witness :
    (delete_place (some adminCtx) "p1" .ok sampleDB).1
        = .ok 200 "Place deleted successfully"
    ∧ (∀ r ∈ (delete_place (some adminCtx) "p1" .ok sampleDB).2.reviews,
        r.place_id ≠ "p1")
    ∧ (∀ p ∈ (delete_place (some adminCtx) "p1" .ok sampleDB).2.places,
        p.id ≠ "p1")
    ∧ delete_place (some adminCtx) "p1" .failure sampleDB
        = (.err 500 "Failed to delete place", sampleDB) := by
  obtain ⟨h1, h2, h3⟩ :=
    delete_place_cascades_and_atomic adminCtx beachHouse "p1" sampleDB rfl
      (by decide) rfl
  exact ⟨h1.1, h1.2.2.1, h1.2.1, h3 .failure (by decide)⟩

/-- C2: a successful admin delete of identity `U` answers 200, removes
every review whose `user_id` is `U`'s id (keeping all other reviews),
removes every user with `U`'s id (keeping all others), and maps the place
table so that exactly the places owned by `U` get `owner_id := none` with
every other field unchanged while all other places are untouched — no
place is deleted (the table keeps its length). When the commit step fails
the whole operation answers 500 and the state is exactly the
pre-operation state. -/
theorem delete_user_cascades_and_atomic (ctx : AuthCtx) (U : User)
    (uid : String) (s : DB) (hadm : ctx.claims.is_admin = true)
    (hU : U ∈ s.users) (hid : U.id = uid) :
    ((delete_user (some ctx) uid .ok s).1 = .ok 200 "User deleted successfully"
      ∧ (∀ r ∈ (delete_user (some ctx) uid .ok s).2.reviews, r.user_id ≠ uid)
      ∧ (∀ r ∈ s.reviews, r.user_id ≠ uid → r ∈ (delete_user (some ctx) uid .ok s).2.reviews)
      ∧ (∀ u ∈ (delete_user (some ctx) uid .ok s).2.users, u.id ≠ uid)
      ∧ (∀ u ∈ s.users, u.id ≠ uid → u ∈ (delete_user (some ctx) uid .ok s).2.users)
      ∧ (delete_user (some ctx) uid .ok s).2.places
          = s.places.map (fun p =>
              if p.owner_id == some uid then { p with owner_id := none } else p)
      ∧ (∀ p ∈ s.places, p.owner_id = some uid →
          { p with owner_id := none } ∈ (delete_user (some ctx) uid .ok s).2.places)
      ∧ (∀ p ∈ s.places, p.owner_id ≠ some uid →
          p ∈ (delete_user (some ctx) uid .ok s).2.places)
      ∧ (delete_user (some ctx) uid .ok s).2.places.length = s.places.length)
    ∧ (∀ c : CommitResult, c ≠ .ok →
        delete_user (some ctx) uid c s = (.err 500 "Failed to delete user", s)) := by
  obtain ⟨q, hq, -, -⟩ :=
    exists_find?_eq_some (fun u => u.id == uid) s.users U hU (by simp [hid])
  refine ⟨?_, ?_⟩
  · simp only [delete_user, admin_required, hadm, if_true, hq]
    refine ⟨trivial, ?_, ?_, ?_, ?_, trivial, ?_, ?_, by simp⟩
    · intro r hr
      simpa using (List.mem_filter.mp hr).2
    · intro r hr hne
      exact List.mem_filter.mpr ⟨hr, by simpa using hne⟩
    · intro u hu
      simpa using (List.mem_filter.mp hu).2
    · intro u hu hne
      exact List.mem_filter.mpr ⟨hu, by simpa using hne⟩
    · intro p hp hown
      have : (fun p : Place =>
          if p.owner_id == some uid then { p with owner_id := none } else p) p
          = { p with owner_id := none } := by
        simp [hown]
      exact this ▸ List.mem_map_of_mem _ hp
    · intro p hp hown
      have : (fun p : Place =>
          if p.owner_id == some uid then { p with owner_id := none } else p) p
          = p := by
        have : (p.owner_id == some uid) = false := by
          simpa using hown
        simp [this]
      exact this ▸ List.mem_map_of_mem _ hp
  · intro c hc
    cases c with
    | ok => exact absurd rfl hc
    | integrityError => simp [delete_user, admin_required, hadm, hq]
    | failure => simp [delete_user, admin_required, hadm, hq]

/-- C2 witness: deleting user `u1` (who owns place `p1` and review `r1`
on place `p1`) removes `r1`, nulls `p1.owner_id` while `p1` itself
survives, keeps `r2` and `p2`, and a failed commit leaves the state as it
was. -/
theorem delete_user_cascades_and_atomic_witness :
    (delete_user (some adminCtx) "u1" .ok sampleDB).1
        = .ok 200 "User deleted successfully"
    ∧ (∀ r ∈ (delete_user (some adminCtx) "u1" .ok sampleDB).2.reviews,
        r.user_id ≠ "u1")
    ∧ ({ beachHouse with owner_id := none }
        ∈ (delete_user (some adminCtx) "u1" .ok sampleDB).2.places)
    ∧ cozyCabin ∈ (delete_user (some adminCtx) "u1" .ok sampleDB).2.places
    ∧ (delete_user (some adminCtx) "u1" .ok sampleDB).2.places.length
        = sampleDB.places.length
    ∧ delete_user (some adminCtx) "u1" .failure sampleDB
        = (.err 500 "Failed to delete user", sampleDB) := by
  obtain ⟨h1, h2⟩ :=
    delete_user_cascades_and_atomic adminCtx demoUser "u1" sampleDB rfl
      (by decide) rfl
  refine ⟨h1.1, h1.2.1, ?_, ?_, h1.2.2.2.2.2.2.2.2, h2 .failure (by decide)⟩
  · exact h1.2.2.2.2.2.2.1 beachHouse (by decide) (by decide)
  · exact h1.2.2.2.2.2.2.2.1 cozyCabin (by decide) (by decide)

/-- C3: for an authenticated caller, a well-formed request naming an
existing place fails with 409 "Duplicate review detected" and adds no row
exactly when a stored review already carries the identical
`(user_id, place_id, text, rating)` tuple (text compared after
stripping); when no stored review matches the full tuple the request
succeeds and appends exactly that review; consequently a store whose
review tuples are pairwise distinct keeps that property across the
operation. -/
theorem create_review_exact_duplicate_guard (ctx : AuthCtx) (Q : Place)
    (pid t : String) (rt : Int) (newId : String) (s : DB)
    (hQ : Q ∈ s.places) (hqid : Q.id = pid)
    (hpid : pid.isEmpty = false) (ht : t.isEmpty = false) :
    ((∃ r ∈ s.reviews, r.user_id = ctx.identity ∧ r.place_id = pid
        ∧ r.text = pyStrip t ∧ r.rating = rt) →
      create_review (some ctx) ⟨some pid, some t, some rt⟩ newId s
        = (.err 409 "Duplicate review detected", s))
    ∧ ((∀ r ∈ s.reviews, ¬(r.user_id = ctx.identity ∧ r.place_id = pid
        ∧ r.text = pyStrip t ∧ r.rating = rt)) →
      create_review (some ctx) ⟨some pid, some t, some rt⟩ newId s
        = (.ok 201 ⟨newId, ctx.identity, pid, pyStrip t, rt⟩,
           { s with reviews :=
               s.reviews ++ [⟨newId, ctx.identity, pid, pyStrip t, rt⟩] }))
    ∧ ((s.reviews.map Review.tuple).Nodup →
        ((create_review (some ctx) ⟨some pid, some t, some rt⟩
            newId s).2.reviews.map Review.tuple).Nodup) := by
  obtain ⟨q, hq, -, -⟩ :=
    exists_find?_eq_some (fun p => p.id == pid) s.places Q hQ (by simp [hqid])
  have ha : (∃ r ∈ s.reviews, r.user_id = ctx.identity ∧ r.place_id = pid
      ∧ r.text = pyStrip t ∧ r.rating = rt) →
      create_review (some ctx) ⟨some pid, some t, some rt⟩ newId s
        = (.err 409 "Duplicate review detected", s) := by
    rintro ⟨r0, hr0, h1, h2, h3, h4⟩
    obtain ⟨r1, hr1, -, -⟩ :=
      exists_find?_eq_some
        (fun r => r.user_id == ctx.identity && r.place_id == pid
          && r.text == pyStrip t && r.rating == rt)
        s.reviews r0 hr0 (by simp [h1, h2, h3, h4])
    simp [create_review, falsy, hpid, ht, hq, hr1]
  have hb : (∀ r ∈ s.reviews, ¬(r.user_id = ctx.identity ∧ r.place_id = pid
      ∧ r.text = pyStrip t ∧ r.rating = rt)) →
      create_review (some ctx) ⟨some pid, some t, some rt⟩ newId s
        = (.ok 201 ⟨newId, ctx.identity, pid, pyStrip t, rt⟩,
           { s with reviews :=
               s.reviews ++ [⟨newId, ctx.identity, pid, pyStrip t, rt⟩] }) := by
    intro h
    have hnone : s.reviews.find? (fun r =>
        r.user_id == ctx.identity && r.place_id == pid
        && r.text == pyStrip t && r.rating == rt) = none := by
      refine List.find?_eq_none.mpr (fun x hx hpred => ?_)
      exact h x hx (by simpa [Bool.and_eq_true, beq_iff_eq, and_assoc]
        using hpred)
    simp [create_review, falsy, hpid, ht, hq, hnone]
  refine ⟨ha, hb, ?_⟩
  intro hnodup
  by_cases hdup : ∃ r ∈ s.reviews, r.user_id = ctx.identity
      ∧ r.place_id = pid ∧ r.text = pyStrip t ∧ r.rating = rt
  · rw [ha hdup]
    exact hnodup
  · push_neg at hdup
    have hdup' : ∀ r ∈ s.reviews, ¬(r.user_id = ctx.identity
        ∧ r.place_id = pid ∧ r.text = pyStrip t ∧ r.rating = rt) := by
      intro r hr hcon
      exact hdup r hr hcon.1 hcon.2.1 hcon.2.2.1 hcon.2.2.2
    rw [hb hdup']
    simp only [List.map_append]
    rw [List.nodup_append]
    refine ⟨hnodup, by simp, ?_⟩
    intro x hx hx'
    simp only [List.map_cons, List.map_nil, List.mem_cons,
      List.not_mem_nil, or_false] at hx'
    obtain ⟨r, hr, htup⟩ := List.mem_map.mp hx
    rw [hx'] at htup
    simp only [Review.tuple, Prod.mk.injEq] at htup
    exact hdup' r hr ⟨htup.1, htup.2.1, htup.2.2.1, htup.2.2.2⟩

/-- C3 witness: resubmitting review `r1`'s exact tuple on the sample
state answers 409 and leaves the state unchanged; a review differing in
its text is accepted and appended; and the no-exact-duplicate property of
the review table survives the successful insertion. -/
theorem create_review_exact_duplicate_guard_witness :
    create_review (some demoCtx) ⟨some "p1", some "Great stay", some 5⟩
        "r9" sampleDB = (.err 409 "Duplicate review detected", sampleDB)
    ∧ create_review (some demoCtx) ⟨some "p1", some "Lovely", some 5⟩
        "r9" sampleDB
      = (.ok 201 ⟨"r9", "u1", "p1", "Lovely", 5⟩,
         { sampleDB with reviews :=
             sampleDB.reviews ++ [⟨"r9", "u1", "p1", "Lovely", 5⟩] })
    ∧ ((create_review (some demoCtx) ⟨some "p1", some "Lovely", some 5⟩
          "r9" sampleDB).2.reviews.map Review.tuple).Nodup := by
  obtain ⟨ha, -, -⟩ :=
    create_review_exact_duplicate_guard demoCtx beachHouse "p1" "Great stay"
      5 "r9" sampleDB (by decide) rfl (by decide) (by decide)
  obtain ⟨-, hb, hc⟩ :=
    create_review_exact_duplicate_guard demoCtx beachHouse "p1" "Lovely"
      5 "r9" sampleDB (by decide) rfl (by decide) (by decide)
  refine ⟨ha ⟨rev1, by decide, by decide, by decide, by decide⟩, ?_, ?_⟩
  · rw [hb (by decide)]
    have : pyStrip "Lovely" = "Lovely" := by decide
    simp [this, demoCtx]
  · exact hc (by decide)

/-- C4: a register request with all fields present whose normalized
(stripped, lowercased) email is held by exactly one stored identity fails
with 400 "Email already registered" for every commit outcome, leaving the
store with exactly one identity under that email; and when the store has
no such identity but the commit itself reports a uniqueness violation
(`IntegrityError`), the insertion is rolled back and the very same
duplicate-email error is reported, not a generic failure. -/
theorem register_duplicate_email_guard (req : RegisterReq) (newId : String)
    (s : DB)
    (hpw : falsy req.password = false) (hfn : falsy req.first_name = false)
    (hln : falsy req.last_name = false)
    (hne : (pyLower (pyStrip (req.email.getD ""))).isEmpty = false) :
    ((s.users.countP
        (fun u => u.email == pyLower (pyStrip (req.email.getD ""))) = 1) →
      ∀ c : CommitResult,
        register req newId c s = (.err 400 "Email already registered", s)
        ∧ (register req newId c s).2.users.countP
            (fun u => u.email == pyLower (pyStrip (req.email.getD ""))) = 1)
    ∧ ((∀ u ∈ s.users, u.email ≠ pyLower (pyStrip (req.email.getD ""))) →
        register req newId .integrityError s
          = (.err 400 "Email already registered", s)) := by
  refine ⟨?_, ?_⟩
  · intro hcount c
    have hpos : 0 < s.users.countP
        (fun u => u.email == pyLower (pyStrip (req.email.getD ""))) := by
      omega
    obtain ⟨u0, hu0, hp0⟩ := List.countP_pos_iff.mp hpos
    obtain ⟨u1, hu1, -, -⟩ :=
      exists_find?_eq_some
        (fun u => u.email == pyLower (pyStrip (req.email.getD "")))
        s.users u0 hu0 hp0
    have heq : register req newId c s
        = (.err 400 "Email already registered", s) := by
      simp [register, hne, hpw, hfn, hln, hu1]
    exact ⟨heq, by rw [heq]; exact hcount⟩
  · intro h
    have hnone : s.users.find?
        (fun u => u.email == pyLower (pyStrip (req.email.getD ""))) = none := by
      refine List.find?_eq_none.mpr (fun x hx hpred => ?_)
      exact h x hx (by simpa using hpred)
    simp [register, hne, hpw, hfn, hln, hnone]

/-- C4 witness: registering `" Demo@Example.COM "` (which normalizes to
the stored demo account's email) fails with the duplicate-email error and
the store keeps exactly one identity with that email; and a commit-time
`IntegrityError` on a fresh email is reported as the same duplicate-email
error with the store unchanged. -/
theorem register_duplicate_email_guard_witness :
    register ⟨some "New", some "Person", some " Demo@Example.COM ",
        some "pw123"⟩ "u9" .ok sampleDB
      = (.err 400 "Email already registered", sampleDB)
    ∧ (register ⟨some "New", some "Person", some " Demo@Example.COM ",
        some "pw123"⟩ "u9" .ok sampleDB).2.users.countP
        (fun u => u.email
          == pyLower (pyStrip ((some " Demo@Example.COM ").getD ""))) = 1
    ∧ register ⟨some "New", some "Person", some "new@example.com",
        some "pw123"⟩ "u9" .integrityError sampleDB
      = (.err 400 "Email already registered", sampleDB) := by
  obtain ⟨h1, -⟩ :=
    register_duplicate_email_guard
      ⟨some "New", some "Person", some " Demo@Example.COM ", some "pw123"⟩
      "u9" sampleDB (by decide) (by decide) (by decide) (by decide)
  obtain ⟨-, h2⟩ :=
    register_duplicate_email_guard
      ⟨some "New", some "Person", some "new@example.com", some "pw123"⟩
      "u9" sampleDB (by decide) (by decide) (by decide) (by decide)
  obtain ⟨ha, hb⟩ := h1 (by decide) .ok
  exact ⟨ha, hb, h2 (by decide)⟩

/-- C6: for an authenticated caller and a stored review `R` (with `rid`
identifying `R` alone), deletion with a clean commit succeeds — removing
`R` and only `R`, touching neither users nor places — precisely when the
caller's subject is `R`'s `user_id` or the caller's claims mark them
admin; a caller who is neither gets 403 "Unauthorized action" with the
store unchanged, whatever the commit outcome would have been. -/
theorem delete_review_owner_or_admin (ctx : AuthCtx) (R : Review)
    (rid : String) (s : DB) (hR : R ∈ s.reviews) (hid : R.id = rid)
    (huniq : ∀ r ∈ s.reviews, r.id = rid → r = R) :
    ((ctx.claims.is_admin = true ∨ ctx.identity = R.user_id) →
      (delete_review (some ctx) rid .ok s).1
          = .ok 200 "Review deleted successfully"
        ∧ R ∉ (delete_review (some ctx) rid .ok s).2.reviews
        ∧ (∀ r ∈ s.reviews, r ≠ R →
            r ∈ (delete_review (some ctx) rid .ok s).2.reviews)
        ∧ (∀ r ∈ (delete_review (some ctx) rid .ok s).2.reviews,
            r ∈ s.reviews)
        ∧ (delete_review (some ctx) rid .ok s).2.users = s.users
        ∧ (delete_review (some ctx) rid .ok s).2.places = s.places)
    ∧ ((ctx.claims.is_admin = false ∧ ctx.identity ≠ R.user_id) →
        ∀ c : CommitResult,
          delete_review (some ctx) rid c s
            = (.err 403 "Unauthorized action", s)) := by
  obtain ⟨q, hq, hqmem, hqp⟩ :=
    exists_find?_eq_some (fun r => r.id == rid) s.reviews R hR (by simp [hid])
  have hqR : q = R := huniq q hqmem (by simpa using hqp)
  rw [hqR] at hq
  refine ⟨?_, ?_⟩
  · intro h
    have hcond : (!ctx.claims.is_admin && (R.user_id != ctx.identity))
        = false := by
      rcases h with h | h
      · simp [h]
      · simp [h]
    simp only [delete_review, hq, hcond, Bool.false_eq_true, if_false]
    refine ⟨trivial, ?_, ?_, ?_, trivial, trivial⟩
    · intro hmem
      have := (List.mem_filter.mp hmem).2
      simp [hid] at this
    · intro r hr hne
      refine List.mem_filter.mpr ⟨hr, ?_⟩
      have : r.id ≠ rid := fun e => hne (huniq r hr e)
      simpa using this
    · intro r hr
      exact (List.mem_filter.mp hr).1
  · rintro ⟨hna, hnid⟩ c
    have hcond : (!ctx.claims.is_admin && (R.user_id != ctx.identity))
        = true := by
      simp [hna, bne_iff_ne]
      exact fun e => hnid e.symm
    simp [delete_review, hq, hcond]

/-- C6 witness: on the sample state, the owner `u1` deletes their review
`r1` (row removed); the admin can delete it too; and the unrelated
non-admin `u2` gets 403 with the store unchanged. -/
theorem delete_review_owner_or_admin_witness :
    (delete_review (some demoCtx) "r1" .ok sampleDB).1
        = .ok 200 "Review deleted successfully"
    ∧ rev1 ∉ (delete_review (some demoCtx) "r1" .ok sampleDB).2.reviews
    ∧ (delete_review (some adminCtx) "r1" .ok sampleDB).1
        = .ok 200 "Review deleted successfully"
    ∧ delete_review (some otherCtx) "r1" .ok sampleDB
        = (.err 403 "Unauthorized action", sampleDB) := by
  obtain ⟨hown, -⟩ :=
    delete_review_owner_or_admin demoCtx rev1 "r1" sampleDB (by decide) rfl
      (by decide)
  obtain ⟨hadm, -⟩ :=
    delete_review_owner_or_admin adminCtx rev1 "r1" sampleDB (by decide) rfl
      (by decide)
  obtain ⟨-, hother⟩ :=
    delete_review_owner_or_admin otherCtx rev1 "r1" sampleDB (by decide) rfl
      (by decide)
  obtain ⟨h1, h2, -⟩ := hown (Or.inr (by decide))
  exact ⟨h1, h2, (hadm (Or.inl (by decide))).1,
    hother ⟨by decide, by decide⟩ .ok⟩

/-- C7 counterexample: the claim says a negative price is rejected with a
validation error and no place is added, but an admin create with
`price = -5` answers 201 and stores the place with the negative price:
`create_place` only checks `not title or price is None`. -/
theorem create_place_accepts_negative_price :
    create_place (some adminCtx) ⟨some "Loft", none, some (-5)⟩ "p9" sampleDB
      = (.ok 201 ⟨"p9", "Loft", none, some (-5), none⟩,
         { sampleDB with places :=
             sampleDB.places ++ [⟨"p9", "Loft", none, some (-5), none⟩] }) := by
  decide

/-- C7 (amended): an admin create-place request is rejected with 400
"Missing fields" (adding no place) when the title is absent or empty or
the price is missing; any present title and price — a negative price
included — yields a 201 with exactly that place appended, carrying the
given title, description and price and no owner. -/
theorem create_place_validation (ctx : AuthCtx) (req : PlaceReq)
    (newId : String) (s : DB) (hadm : ctx.claims.is_admin = true) :
    ((falsy req.title = true ∨ req.price = none) →
      create_place (some ctx) req newId s = (.err 400 "Missing fields", s))
    ∧ (∀ (t : String) (pr : Int), req.title = some t → t.isEmpty = false →
        req.price = some pr →
        create_place (some ctx) req newId s
          = (.ok 201 ⟨newId, t, req.description, some pr, none⟩,
             { s with places :=
                 s.places ++ [⟨newId, t, req.description, some pr, none⟩] })) := by
  refine ⟨?_, ?_⟩
  · rintro (h | h) <;> simp [create_place, admin_required, hadm, h]
  · intro t pr ht hne hpr
    simp [create_place, admin_required, hadm, ht, hpr, falsy, hne]

/-- C7 witness: an empty title and a missing price are each rejected on
the sample state, while a valid request (even one reusing a negative
price) is stored as given. -/
theorem create_place_validation_witness :
    create_place (some adminCtx) ⟨some "", none, some 3⟩ "p9" sampleDB
        = (.err 400 "Missing fields", sampleDB)
    ∧ create_place (some adminCtx) ⟨some "Loft", none, none⟩ "p9" sampleDB
        = (.err 400 "Missing fields", sampleDB)
    ∧ create_place (some adminCtx) ⟨some "Loft", some "Open space", some 7⟩
        "p9" sampleDB
        = (.ok 201 ⟨"p9", "Loft", some "Open space", some 7, none⟩,
           { sampleDB with places :=
               sampleDB.places
                 ++ [⟨"p9", "Loft", some "Open space", some 7, none⟩] }) := by
  obtain ⟨hrej1, -⟩ :=
    create_place_validation adminCtx ⟨some "", none, some 3⟩ "p9" sampleDB rfl
  obtain ⟨hrej2, -⟩ :=
    create_place_validation adminCtx ⟨some "Loft", none, none⟩ "p9" sampleDB
      rfl
  obtain ⟨-, hok⟩ :=
    create_place_validation adminCtx ⟨some "Loft", some "Open space", some 7⟩
      "p9" sampleDB rfl
  exact ⟨hrej1 (Or.inl (by decide)), hrej2 (Or.inr rfl),
    hok "Loft" 7 rfl (by decide) rfl⟩

/-- C8 counterexample: the claim says every stored review has a rating in
[1,5] and non-empty text, but an authenticated create-review with rating
6 and whitespace-only text is accepted (the handler checks only that the
raw fields are present) and stores a review with rating 6 and empty
text. -/
theorem create_review_stores_out_of_range :
    (create_review (some demoCtx) ⟨some "p2", some "   ", some 6⟩ "r9"
        sampleDB).1 = .ok 201 ⟨"r9", "u1", "p2", "", 6⟩
    ∧ (⟨"r9", "u1", "p2", "", 6⟩ : Review)
        ∈ (create_review (some demoCtx) ⟨some "p2", some "   ", some 6⟩ "r9"
            sampleDB).2.reviews := by
  decide

/-- C8 (amended): a stored review's text is the client text stripped of
surrounding whitespace and its rating is the client integer taken as-is —
`create_review` performs no [1,5] range check and no non-emptiness check
on the stripped text, so a successful create appends exactly the review
`⟨newId, caller, place, stripped text, given rating⟩`. -/
theorem create_review_stored_fields (ctx : AuthCtx) (pid t : String)
    (rt : Int) (newId : String) (s : DB) (Q : Place)
    (hQ : Q ∈ s.places) (hqid : Q.id = pid)
    (hpid : pid.isEmpty = false) (ht : t.isEmpty = false)
    (hnodup : ∀ r ∈ s.reviews, ¬(r.user_id = ctx.identity ∧ r.place_id = pid
      ∧ r.text = pyStrip t ∧ r.rating = rt)) :
    (create_review (some ctx) ⟨some pid, some t, some rt⟩ newId s).1
        = .ok 201 ⟨newId, ctx.identity, pid, pyStrip t, rt⟩
    ∧ (create_review (some ctx) ⟨some pid, some t, some rt⟩ newId s).2.reviews
        = s.reviews ++ [⟨newId, ctx.identity, pid, pyStrip t, rt⟩] := by
  obtain ⟨q, hq, -, -⟩ :=
    exists_find?_eq_some (fun p => p.id == pid) s.places Q hQ (by simp [hqid])
  have hnone : s.reviews.find? (fun r =>
      r.user_id == ctx.identity && r.place_id == pid
      && r.text == pyStrip t && r.rating == rt) = none := by
    refine List.find?_eq_none.mpr (fun x hx hpred => ?_)
    exact hnodup x hx (by simpa [Bool.and_eq_true, beq_iff_eq, and_assoc]
      using hpred)
  constructor <;> simp [create_review, falsy, hpid, ht, hq, hnone]

/-- C8 witness: user `u1` submits rating 9 with padded text on place
`p2`; the stored row carries the stripped text and the rating 9
unchanged. -/
theorem create_review_stored_fields_witness :
    (create_review (some demoCtx) ⟨some "p2", some " Way too good ", some 9⟩
        "r9" sampleDB).2.reviews
      = sampleDB.reviews ++ [⟨"r9", "u1", "p2", "Way too good", 9⟩] := by
  obtain ⟨-, h2⟩ :=
    create_review_stored_fields demoCtx "p2" " Way too good " 9 "r9" sampleDB
      cozyCabin (by decide) rfl (by decide) (by decide) (by decide)
  rw [h2]
  decide

/-- C9: when the normalized (stripped, lowercased) login email equals the
email of a stored identity `U` (emails being unique in the store) and the
password verifies against `U`'s stored hash, login answers 200 with a
token issued for `U`: its decoded subject is `U`'s id and its claims
carry `U`'s id, email and admin flag. -/
theorem login_subject_is_identity (U : User) (emailIn : Option String)
    (pw : String) (s : DB) (hU : U ∈ s.users)
    (hmatch : pyLower (pyStrip (emailIn.getD "")) = U.email)
    (huniq : ∀ u ∈ s.users, u.email = U.email → u = U)
    (hne : U.email.isEmpty = false) (hpw : pw.isEmpty = false)
    (hck : check_password_hash U.password pw = true) :
    login emailIn (some pw) s
      = (.ok 200 (create_access_token U.id ⟨U.id, U.email, U.is_admin⟩), s)
    ∧ (create_access_token U.id ⟨U.id, U.email, U.is_admin⟩).subject
        = U.id := by
  have hq1 : s.users.find? (fun u => u.email == U.email) = some U := by
    obtain ⟨q, hq, hqm, hqp⟩ :=
      exists_find?_eq_some (fun u => u.email == U.email) s.users U hU
        (by simp)
    have : q = U := huniq q hqm (by simpa using hqp)
    rw [this] at hq
    exact hq
  refine ⟨?_, rfl⟩
  simp [login, hmatch, hne, hpw, hq1, hck]

/-- C9 witness: logging in as `" Demo@Example.COM "` with the demo
password on the sample state yields a token whose decoded subject is the
demo identity's id `u1`. -/
theorem login_subject_is_identity_witness :
    login (some " Demo@Example.COM ") (some "DemoPass123") sampleDB
      = (.ok 200 (create_access_token "u1"
          ⟨"u1", "demo@example.com", false⟩), sampleDB)
    ∧ (create_access_token "u1"
        ⟨"u1", "demo@example.com", false⟩).subject = "u1" := by
  obtain ⟨h1, h2⟩ :=
    login_subject_is_identity demoUser (some " Demo@Example.COM ")
      "DemoPass123" sampleDB (by decide) (by decide) (by decide) (by decide)
      (by decide) (by decide)
  exact ⟨by rw [h1]; rfl, h2⟩

/-- C10: the single-user read takes no token at all (its only inputs are
the path id and the store): for a stored identity it answers 200 with
exactly the id, first name, last name, email and admin flag — the
serialization is independent of the password hash, which is never
emitted — and an unknown id answers 404; listing all users, in contrast,
is gated: no verified token gives 401 and a verified non-admin gives
403. -/
theorem get_user_ungated_no_password (U : User) (uid : String) (s : DB)
    (hU : U ∈ s.users) (hid : U.id = uid)
    (huniq : ∀ u ∈ s.users, u.id = uid → u = U) :
    get_user uid s = (.ok 200 U.to_dict, s)
    ∧ U.to_dict = ⟨U.id, U.first_name, U.last_name, U.email, U.is_admin⟩
    ∧ (∀ p : String, User.to_dict { U with password := p } = U.to_dict)
    ∧ (∀ uid' : String, (∀ u ∈ s.users, u.id ≠ uid') →
        get_user uid' s = (.err 404 "User not found", s))
    ∧ list_users none s = (.err 401 "Authentication required", s)
    ∧ (∀ ctx : AuthCtx, ctx.claims.is_admin = false →
        list_users (some ctx) s = (.err 403 "Admin privileges required", s)) := by
  have hq1 : s.users.find? (fun u => u.id == uid) = some U := by
    obtain ⟨q, hq, hqm, hqp⟩ :=
      exists_find?_eq_some (fun u => u.id == uid) s.users U hU (by simp [hid])
    have : q = U := huniq q hqm (by simpa using hqp)
    rw [this] at hq
    exact hq
  refine ⟨by simp [get_user, hq1], rfl, fun p => rfl, ?_, rfl, ?_⟩
  · intro uid' h
    have hnone : s.users.find? (fun u => u.id == uid') = none := by
      refine List.find?_eq_none.mpr (fun x hx hpred => ?_)
      exact h x hx (by simpa using hpred)
    simp [get_user, hnone]
  · intro ctx h
    simp [list_users, admin_required, h]

/-- C10 witness: reading user `u1` returns the five public fields with no
token in play; changing the stored password hash does not change the
serialization; an unknown id gives 404; and the user listing answers 401
without a token and 403 for the non-admin `u1`. -/
theorem get_user_ungated_no_password_witness :
    get_user "u1" sampleDB
      = (.ok 200 ⟨"u1", "Demo", "User", "demo@example.com", false⟩, sampleDB)
    ∧ User.to_dict { demoUser with password := "other" }
        = demoUser.to_dict
    ∧ get_user "zz" sampleDB = (.err 404 "User not found", sampleDB)
    ∧ list_users none sampleDB
        = (.err 401 "Authentication required", sampleDB)
    ∧ list_users (some demoCtx) sampleDB
        = (.err 403 "Admin privileges required", sampleDB) := by
  obtain ⟨h1, h2, h3, h4, h5, h6⟩ :=
    get_user_ungated_no_password demoUser "u1" sampleDB (by decide) rfl
      (by decide)
  exact ⟨by rw [h1, h2]; rfl, h3 "other", h4 "zz" (by decide), h5,
    h6 demoCtx rfl⟩

end HBnB
